import Mathlib

/-!
# The ovn-controller DaemonSet builder

A shallow embedding of `pkg/ovncontroller/daemonset.go`: the function `DaemonSet`
that turns an `OVNController` instance, a config hash, a label map and an
annotation map into the `appsv1.DaemonSet` of the three-container OVN stack
(`ovsdb-server`, `ovs-vswitchd`, `ovn-controller`).

Conventions of the embedding:

* a Go pointer is an `Option` (`nil` is `none`);
* a Go map is `GoMap`, an optional association list (`nil` is `none`);
* a Go slice is a `List`, except where the source distinguishes `nil` from the
  empty slice (`Capabilities.Add` / `Capabilities.Drop`), which are optional lists;
* a Go run-time panic is the error side of `Except GoPanic`;
* the multiple return `(*appsv1.DaemonSet, error)` is a pair of options.
-/

/-- A Go map with string keys: `none` is the nil map, `some kvs` holds the entries. -/
abbrev GoMap (β : Type) := Option (List (String × β))

/-- Go `len` of a map: the nil map has length zero. -/
def GoMap.len {β : Type} : GoMap β → Nat
  | none => 0
  | some kvs => kvs.length

/-- The run-time panics the builder could raise. -/
inductive GoPanic where
  | nilPointerDereference
  deriving DecidableEq, Repr

/-- A Go `error` value. -/
structure GoError where
  msg : String
  deriving DecidableEq, Repr

/-- Dereference of a Go pointer: a nil pointer panics. -/
def deref {α : Type} : Option α → Except GoPanic α
  | none => .error .nilPointerDereference
  | some a => .ok a

/-- Go `strings.Join`. -/
def strings.Join (elems : List String) (sep : String) : String :=
  sep.intercalate elems

/-- The only use of `fmt.Sprintf` in the source: a literal followed by one `%s`. -/
def fmt.Sprintf (literal : String) (arg : String) : String :=
  literal ++ arg

namespace metav1

/-- The fields of `metav1.ObjectMeta` the builder sets. -/
structure ObjectMeta where
  Name : String := ""
  Namespace : String := ""
  Labels : GoMap String := none
  Annotations : GoMap String := none
  deriving DecidableEq, Repr

/-- The field of `metav1.LabelSelector` the builder sets. -/
structure LabelSelector where
  MatchLabels : GoMap String := none
  deriving DecidableEq, Repr

end metav1

namespace corev1

structure HostPathVolumeSource where
  Path : String
  Type_ : Option String := none
  deriving DecidableEq, Repr

structure SecretVolumeSource where
  SecretName : String
  DefaultMode : Option Int := none
  deriving DecidableEq, Repr

structure ConfigMapVolumeSource where
  Name : String
  DefaultMode : Option Int := none
  deriving DecidableEq, Repr

structure VolumeSource where
  HostPath : Option HostPathVolumeSource := none
  Secret : Option SecretVolumeSource := none
  ConfigMap : Option ConfigMapVolumeSource := none
  deriving DecidableEq, Repr

structure Volume where
  Name : String
  VolumeSource : VolumeSource := {}
  deriving DecidableEq, Repr

structure VolumeMount where
  Name : String
  MountPath : String
  SubPath : String := ""
  ReadOnly : Bool := false
  deriving DecidableEq, Repr

structure EnvVarSource where
  SecretKeyRef : Option (String × String) := none
  deriving DecidableEq, Repr

structure EnvVar where
  Name : String
  Value : String := ""
  ValueFrom : Option EnvVarSource := none
  deriving DecidableEq, Repr

structure ResourceRequirements where
  Limits : GoMap String := none
  Requests : GoMap String := none
  deriving DecidableEq, Repr

structure ExecAction where
  Command : List String := []
  deriving DecidableEq, Repr

structure Probe where
  Exec : Option ExecAction := none
  InitialDelaySeconds : Int := 0
  TimeoutSeconds : Int := 0
  PeriodSeconds : Int := 0
  deriving DecidableEq, Repr

structure LifecycleHandler where
  Exec : Option ExecAction := none
  deriving DecidableEq, Repr

structure Lifecycle where
  PostStart : Option LifecycleHandler := none
  PreStop : Option LifecycleHandler := none
  deriving DecidableEq, Repr

abbrev Capability := String

structure Capabilities where
  Add : Option (List Capability) := none
  Drop : Option (List Capability) := none
  deriving DecidableEq, Repr

structure SecurityContext where
  Capabilities : Option Capabilities := none
  Privileged : Option Bool := none
  RunAsUser : Option Int := none
  deriving DecidableEq, Repr

/-- The Go type `TerminationMessagePolicy` is a string. -/
abbrev TerminationMessagePolicy := String

/-- The constant `corev1.TerminationMessageFallbackToLogsOnError`. -/
def TerminationMessageFallbackToLogsOnError : TerminationMessagePolicy :=
  "FallbackToLogsOnError"

structure Container where
  Name : String
  Image : String := ""
  Command : List String := []
  Args : List String := []
  Env : List EnvVar := []
  Resources : ResourceRequirements := {}
  VolumeMounts : List VolumeMount := []
  LivenessProbe : Option Probe := none
  ReadinessProbe : Option Probe := none
  Lifecycle : Option Lifecycle := none
  TerminationMessagePolicy : TerminationMessagePolicy := ""
  SecurityContext : Option SecurityContext := none
  deriving DecidableEq, Repr

structure PodSpec where
  Volumes : List Volume := []
  Containers : List Container := []
  NodeSelector : GoMap String := none
  ServiceAccountName : String := ""
  deriving DecidableEq, Repr

structure PodTemplateSpec where
  ObjectMeta : metav1.ObjectMeta := {}
  Spec : PodSpec := {}
  deriving DecidableEq, Repr

end corev1

namespace appsv1

structure DaemonSetSpec where
  Selector : Option metav1.LabelSelector := none
  Template : corev1.PodTemplateSpec := {}
  deriving DecidableEq, Repr

structure DaemonSet where
  ObjectMeta : metav1.ObjectMeta := {}
  Spec : DaemonSetSpec := {}
  deriving DecidableEq, Repr

end appsv1

namespace tls

/-- Server TLS secret of lib-common: `SecretName *string`. -/
structure GenericService where
  SecretName : Option String := none
  deriving DecidableEq, Repr

/-- CA settings of lib-common: `CaBundleSecretName string`. -/
structure Ca where
  CaBundleSecretName : String := ""
  deriving DecidableEq, Repr

/-- The `tls.SimpleService` of lib-common embeds `GenericService` and `Ca`. -/
structure SimpleService where
  GenericService : GenericService := {}
  Ca : Ca := {}
  deriving DecidableEq, Repr

/-- The `tls.Service` literal built at lines 55-60 of the source. -/
structure Service where
  SecretName : String
  CertMount : Option String := none
  KeyMount : Option String := none
  CaMount : Option String := none
  deriving DecidableEq, Repr

/-- Modelled from the spec: `Enabled()` of the TLS library is not part of the source tree.
The spec calls it "a stronger condition requiring a configured service secret"
("TLS enabled with a named secret"), distinct from the CA-bundle check: full TLS is
enabled exactly when the service secret reference is set and names a secret. -/
def SimpleService.Enabled (s : SimpleService) : Bool :=
  match s.GenericService.SecretName with
  | none => false
  | some secretName => secretName != ""

end tls

namespace env

/-- A named value-setter of the environment-merge utility (`func(*corev1.EnvVar)`). -/
abbrev Setter := corev1.EnvVar → corev1.EnvVar

/-- Modelled from the spec: `env.SetValue` is not part of the source tree. The spec
describes the setter used here as "a single fixed value": it stores the value in
the entry and clears any indirect source. -/
def SetValue (value : String) : Setter :=
  fun e => { e with Value := value, ValueFrom := none }

/-- One step of the merge: the setter updates the first entry carrying the name, or
a fresh entry of that name is appended and set. -/
def applySetter (name : String) (f : Setter) : List corev1.EnvVar → List corev1.EnvVar
  | [] => [f { Name := name }]
  | e :: es => if e.Name = name then f e :: es else e :: applySetter name f es

/-- Modelled from the spec: `env.MergeEnvs` is not part of the source tree. The spec:
it "combines a base list of environment entries with a mapping of named
value-setters into the final ordered environment-variable list". The mapping is
given as its entries in the order the Go `range` visits them. -/
def MergeEnvs (envs : List corev1.EnvVar) (newEnvs : List (String × Setter)) :
    List corev1.EnvVar :=
  newEnvs.foldl (fun acc kv => applySetter kv.1 kv.2 acc) envs

end env

namespace ovnv1

/-- The fields of `OVNControllerSpec` read by the builder. -/
structure OVNControllerSpec where
  OvsContainerImage : String := ""
  OvnContainerImage : String := ""
  NodeSelector : GoMap String := none
  Resources : corev1.ResourceRequirements := {}
  TLS : tls.SimpleService := {}
  deriving DecidableEq, Repr

/-- The `OVNController` custom resource: identity and spec. -/
structure OVNController where
  Name : String := ""
  Namespace : String := ""
  Spec : OVNControllerSpec := {}
  deriving DecidableEq, Repr

end ovnv1

/-- The declarations `daemonset.go` uses that live outside the source tree, taken as
parameters: the constants of `ovnv1` and `ovn_common`, the RBAC name of an instance,
the volume catalog of package `ovncontroller`, and the volume constructors of the
TLS library (`Ca.CreateVolume`, `Ca.CreateVolumeMounts`, `Service.CreateVolume`,
`Service.CreateVolumeMounts`). -/
structure Collaborators where
  ServiceNameOvnController : String
  OVNDbCertPath : String
  OVNDbKeyPath : String
  OVNDbCaCertPath : String
  RbacResourceName : ovnv1.OVNController → String
  GetVolumes : String → String → List corev1.Volume
  GetOvnControllerVolumeMounts : Unit → List corev1.VolumeMount
  GetOvsDbVolumeMounts : Unit → List corev1.VolumeMount
  GetVswitchdVolumeMounts : Unit → List corev1.VolumeMount
  CaCreateVolume : tls.Ca → corev1.Volume
  CaCreateVolumeMounts : tls.Ca → Option String → List corev1.VolumeMount
  ServiceCreateVolume : tls.Service → String → corev1.Volume
  ServiceCreateVolumeMounts : tls.Service → String → List corev1.VolumeMount

namespace ovncontroller

/-- The security context literal repeated for each of the three containers
(lines 183-190, 209-216, 238-245). -/
def securityContext (runAsUser : Int) (privileged : Bool) : corev1.SecurityContext :=
  { Capabilities := some
      { Add := some ["NET_ADMIN", "SYS_ADMIN", "SYS_NICE"]
        Drop := some [] }
    RunAsUser := some runAsUser
    Privileged := some privileged }

/-- The `Lifecycle` literal with a pre-stop exec hook (lines 175-181 and siblings). -/
def preStopLifecycle (command : List String) : corev1.Lifecycle :=
  { PreStop := some { Exec := some { Command := command } } }

/-- The function `DaemonSet` of `daemonset.go` (lines 31-264). -/
def DaemonSet (c : Collaborators) (inst : Option ovnv1.OVNController) (configHash : String)
    (labels : GoMap String) (annotations : GoMap String) :
    Except GoPanic (Option appsv1.DaemonSet × Option GoError) := do
  let inst ← deref inst
  let runAsUser : Int := 0
  let privileged := true

  let mut volumes := c.GetVolumes inst.Name inst.Namespace
  let mut commonVolumeMounts : List corev1.VolumeMount := []

  -- add CA bundle if defined
  if inst.Spec.TLS.Ca.CaBundleSecretName ≠ "" then
    volumes := volumes ++ [c.CaCreateVolume inst.Spec.TLS.Ca]
    commonVolumeMounts := commonVolumeMounts ++ c.CaCreateVolumeMounts inst.Spec.TLS.Ca none

  let mut ovnControllerVolumeMounts := c.GetOvnControllerVolumeMounts () ++ commonVolumeMounts

  -- add OVN dbs cert and CA
  let mut ovnControllerTLSArgs : List String := []
  if inst.Spec.TLS.Enabled then
    let secretName ← deref inst.Spec.TLS.GenericService.SecretName
    let svc : tls.Service :=
      { SecretName := secretName
        CertMount := some c.OVNDbCertPath
        KeyMount := some c.OVNDbKeyPath
        CaMount := some c.OVNDbCaCertPath }
    volumes := volumes ++ [c.ServiceCreateVolume svc c.ServiceNameOvnController]
    ovnControllerVolumeMounts :=
      ovnControllerVolumeMounts ++ c.ServiceCreateVolumeMounts svc c.ServiceNameOvnController
    ovnControllerTLSArgs :=
      [ fmt.Sprintf "--certificate=" c.OVNDbCertPath,
        fmt.Sprintf "--private-key=" c.OVNDbKeyPath,
        fmt.Sprintf "--ca-cert=" c.OVNDbCaCertPath ]

  let ovsDbLivenessProbe : corev1.Probe :=
    { TimeoutSeconds := 5, PeriodSeconds := 3, InitialDelaySeconds := 3 }
  let ovsVswitchdLivenessProbe : corev1.Probe :=
    { TimeoutSeconds := 5, PeriodSeconds := 3, InitialDelaySeconds := 3 }

  let ovsDbLivenessProbe :=
    { ovsDbLivenessProbe with Exec := some { Command := ["/usr/bin/ovs-vsctl", "show"] } }
  let ovsDbCmd := ["/usr/bin/dumb-init"]
  let ovsDbArgs :=
    ["--single-child", "--", "/usr/local/bin/container-scripts/start-ovsdb-server.sh"]
  -- sleep is required as workaround for kubernetes issue 39170
  let ovsDbPreStopCmd :=
    ["/usr/share/openvswitch/scripts/ovs-ctl", "stop", "--no-ovs-vswitchd", ";", "sleep", "2"]

  let ovsVswitchdLivenessProbe :=
    { ovsVswitchdLivenessProbe with
        Exec := some { Command := ["/usr/bin/ovs-appctl", "bond/show"] } }
  let ovsVswitchdCmd := ["/usr/sbin/ovs-vswitchd"]
  let ovsVswitchdArgs := ["--pidfile", "--mlockall"]
  let ovsVswitchdPreStopCmd :=
    ["/usr/share/openvswitch/scripts/ovs-ctl", "stop", "--no-ovsdb-server", ";", "sleep", "2"]

  let ovnControllerCmd := ["/bin/bash", "-c"]
  let ovnControllerArgs :=
    [ strings.Join
        (["/usr/local/bin/container-scripts/net_setup.sh && ovn-controller"] ++
          (ovnControllerTLSArgs ++ ["--pidfile", "unix:/run/openvswitch/db.sock"]))
        " " ]
  let ovnControllerPreStopCmd :=
    ["/usr/share/ovn/scripts/ovn-ctl", "stop_controller", ";", "sleep", "2"]

  let envVars : List (String × env.Setter) := [("CONFIG_HASH", env.SetValue configHash)]

  let mut daemonset : appsv1.DaemonSet :=
    { ObjectMeta :=
        { Name := c.ServiceNameOvnController
          Namespace := inst.Namespace }
      Spec :=
        { Selector := some { MatchLabels := labels }
          Template :=
            { ObjectMeta :=
                { Labels := labels
                  Annotations := annotations }
              Spec :=
                { ServiceAccountName := c.RbacResourceName inst
                  Containers :=
                    [ -- ovsdb-server container
                      { Name := "ovsdb-server"
                        Command := ovsDbCmd
                        Args := ovsDbArgs
                        Lifecycle := some (preStopLifecycle ovsDbPreStopCmd)
                        Image := inst.Spec.OvsContainerImage
                        SecurityContext := some (securityContext runAsUser privileged)
                        Env := env.MergeEnvs [] envVars
                        VolumeMounts := c.GetOvsDbVolumeMounts () ++ commonVolumeMounts
                        Resources := inst.Spec.Resources
                        LivenessProbe := some ovsDbLivenessProbe
                        TerminationMessagePolicy :=
                          corev1.TerminationMessageFallbackToLogsOnError },
                      -- ovs-vswitchd container
                      { Name := "ovs-vswitchd"
                        Command := ovsVswitchdCmd
                        Args := ovsVswitchdArgs
                        Lifecycle := some (preStopLifecycle ovsVswitchdPreStopCmd)
                        Image := inst.Spec.OvsContainerImage
                        SecurityContext := some (securityContext runAsUser privileged)
                        Env := env.MergeEnvs [] envVars
                        VolumeMounts := c.GetVswitchdVolumeMounts () ++ commonVolumeMounts
                        Resources := inst.Spec.Resources
                        LivenessProbe := some ovsVswitchdLivenessProbe
                        TerminationMessagePolicy :=
                          corev1.TerminationMessageFallbackToLogsOnError },
                      -- ovn-controller container
                      { Name := "ovn-controller"
                        Command := ovnControllerCmd
                        Args := ovnControllerArgs
                        Lifecycle := some (preStopLifecycle ovnControllerPreStopCmd)
                        Image := inst.Spec.OvnContainerImage
                        SecurityContext := some (securityContext runAsUser privileged)
                        Env := env.MergeEnvs [] envVars
                        VolumeMounts := ovnControllerVolumeMounts
                        Resources := inst.Spec.Resources
                        TerminationMessagePolicy :=
                          corev1.TerminationMessageFallbackToLogsOnError } ] } } } }
  daemonset :=
    { daemonset with
        Spec.Template.Spec.Volumes := volumes }

  if inst.Spec.NodeSelector ≠ none ∧ GoMap.len inst.Spec.NodeSelector > 0 then
    daemonset :=
      { daemonset with
          Spec.Template.Spec.NodeSelector := inst.Spec.NodeSelector }

  return (some daemonset, none)

/-- The order in which a Go `range` visits the entries of a map, one choice per call
site: Go leaves the order unspecified, so an execution may use any permutation of the
entries. -/
abbrev RangeOrder :=
  Nat → List (String × env.Setter) → List (String × env.Setter)

/-- The function `DaemonSet` of `daemonset.go` (lines 31-264) with the choice the Go
run time makes during an execution written out: `rangeOrder k` is the order in which
the `range` inside the `k`-th call of `env.MergeEnvs` (lines 191, 217, 246) visits the
entries of the map `envVars`. Everything else is the text of `DaemonSet`. -/
def DaemonSetWithRange (c : Collaborators) (rangeOrder : RangeOrder)
    (inst : Option ovnv1.OVNController) (configHash : String)
    (labels : GoMap String) (annotations : GoMap String) :
    Except GoPanic (Option appsv1.DaemonSet × Option GoError) := do
  let inst ← deref inst
  let runAsUser : Int := 0
  let privileged := true

  let mut volumes := c.GetVolumes inst.Name inst.Namespace
  let mut commonVolumeMounts : List corev1.VolumeMount := []

  -- add CA bundle if defined
  if inst.Spec.TLS.Ca.CaBundleSecretName ≠ "" then
    volumes := volumes ++ [c.CaCreateVolume inst.Spec.TLS.Ca]
    commonVolumeMounts := commonVolumeMounts ++ c.CaCreateVolumeMounts inst.Spec.TLS.Ca none

  let mut ovnControllerVolumeMounts := c.GetOvnControllerVolumeMounts () ++ commonVolumeMounts

  -- add OVN dbs cert and CA
  let mut ovnControllerTLSArgs : List String := []
  if inst.Spec.TLS.Enabled then
    let secretName ← deref inst.Spec.TLS.GenericService.SecretName
    let svc : tls.Service :=
      { SecretName := secretName
        CertMount := some c.OVNDbCertPath
        KeyMount := some c.OVNDbKeyPath
        CaMount := some c.OVNDbCaCertPath }
    volumes := volumes ++ [c.ServiceCreateVolume svc c.ServiceNameOvnController]
    ovnControllerVolumeMounts :=
      ovnControllerVolumeMounts ++ c.ServiceCreateVolumeMounts svc c.ServiceNameOvnController
    ovnControllerTLSArgs :=
      [ fmt.Sprintf "--certificate=" c.OVNDbCertPath,
        fmt.Sprintf "--private-key=" c.OVNDbKeyPath,
        fmt.Sprintf "--ca-cert=" c.OVNDbCaCertPath ]

  let ovsDbLivenessProbe : corev1.Probe :=
    { TimeoutSeconds := 5, PeriodSeconds := 3, InitialDelaySeconds := 3 }
  let ovsVswitchdLivenessProbe : corev1.Probe :=
    { TimeoutSeconds := 5, PeriodSeconds := 3, InitialDelaySeconds := 3 }

  let ovsDbLivenessProbe :=
    { ovsDbLivenessProbe with Exec := some { Command := ["/usr/bin/ovs-vsctl", "show"] } }
  let ovsDbCmd := ["/usr/bin/dumb-init"]
  let ovsDbArgs :=
    ["--single-child", "--", "/usr/local/bin/container-scripts/start-ovsdb-server.sh"]
  -- sleep is required as workaround for kubernetes issue 39170
  let ovsDbPreStopCmd :=
    ["/usr/share/openvswitch/scripts/ovs-ctl", "stop", "--no-ovs-vswitchd", ";", "sleep", "2"]

  let ovsVswitchdLivenessProbe :=
    { ovsVswitchdLivenessProbe with
        Exec := some { Command := ["/usr/bin/ovs-appctl", "bond/show"] } }
  let ovsVswitchdCmd := ["/usr/sbin/ovs-vswitchd"]
  let ovsVswitchdArgs := ["--pidfile", "--mlockall"]
  let ovsVswitchdPreStopCmd :=
    ["/usr/share/openvswitch/scripts/ovs-ctl", "stop", "--no-ovsdb-server", ";", "sleep", "2"]

  let ovnControllerCmd := ["/bin/bash", "-c"]
  let ovnControllerArgs :=
    [ strings.Join
        (["/usr/local/bin/container-scripts/net_setup.sh && ovn-controller"] ++
          (ovnControllerTLSArgs ++ ["--pidfile", "unix:/run/openvswitch/db.sock"]))
        " " ]
  let ovnControllerPreStopCmd :=
    ["/usr/share/ovn/scripts/ovn-ctl", "stop_controller", ";", "sleep", "2"]

  let envVars : List (String × env.Setter) := [("CONFIG_HASH", env.SetValue configHash)]

  let mut daemonset : appsv1.DaemonSet :=
    { ObjectMeta :=
        { Name := c.ServiceNameOvnController
          Namespace := inst.Namespace }
      Spec :=
        { Selector := some { MatchLabels := labels }
          Template :=
            { ObjectMeta :=
                { Labels := labels
                  Annotations := annotations }
              Spec :=
                { ServiceAccountName := c.RbacResourceName inst
                  Containers :=
                    [ -- ovsdb-server container
                      { Name := "ovsdb-server"
                        Command := ovsDbCmd
                        Args := ovsDbArgs
                        Lifecycle := some (preStopLifecycle ovsDbPreStopCmd)
                        Image := inst.Spec.OvsContainerImage
                        SecurityContext := some (securityContext runAsUser privileged)
                        Env := env.MergeEnvs [] (rangeOrder 0 envVars)
                        VolumeMounts := c.GetOvsDbVolumeMounts () ++ commonVolumeMounts
                        Resources := inst.Spec.Resources
                        LivenessProbe := some ovsDbLivenessProbe
                        TerminationMessagePolicy :=
                          corev1.TerminationMessageFallbackToLogsOnError },
                      -- ovs-vswitchd container
                      { Name := "ovs-vswitchd"
                        Command := ovsVswitchdCmd
                        Args := ovsVswitchdArgs
                        Lifecycle := some (preStopLifecycle ovsVswitchdPreStopCmd)
                        Image := inst.Spec.OvsContainerImage
                        SecurityContext := some (securityContext runAsUser privileged)
                        Env := env.MergeEnvs [] (rangeOrder 1 envVars)
                        VolumeMounts := c.GetVswitchdVolumeMounts () ++ commonVolumeMounts
                        Resources := inst.Spec.Resources
                        LivenessProbe := some ovsVswitchdLivenessProbe
                        TerminationMessagePolicy :=
                          corev1.TerminationMessageFallbackToLogsOnError },
                      -- ovn-controller container
                      { Name := "ovn-controller"
                        Command := ovnControllerCmd
                        Args := ovnControllerArgs
                        Lifecycle := some (preStopLifecycle ovnControllerPreStopCmd)
                        Image := inst.Spec.OvnContainerImage
                        SecurityContext := some (securityContext runAsUser privileged)
                        Env := env.MergeEnvs [] (rangeOrder 2 envVars)
                        VolumeMounts := ovnControllerVolumeMounts
                        Resources := inst.Spec.Resources
                        TerminationMessagePolicy :=
                          corev1.TerminationMessageFallbackToLogsOnError } ] } } } }
  daemonset :=
    { daemonset with
        Spec.Template.Spec.Volumes := volumes }

  if inst.Spec.NodeSelector ≠ none ∧ GoMap.len inst.Spec.NodeSelector > 0 then
    daemonset :=
      { daemonset with
          Spec.Template.Spec.NodeSelector := inst.Spec.NodeSelector }

  return (some daemonset, none)

end ovncontroller

/-! ## Closed forms used to state the results -/

namespace ovncontroller

/-- The `tls.Service` literal of lines 55-60, for a given secret name. -/
def ovnDbService (c : Collaborators) (secretName : String) : tls.Service :=
  { SecretName := secretName
    CertMount := some c.OVNDbCertPath
    KeyMount := some c.OVNDbKeyPath
    CaMount := some c.OVNDbCaCertPath }

/-- The volumes added by the CA-bundle guard of lines 45-48. -/
def caBundleVolumes (c : Collaborators) (inst : ovnv1.OVNController) : List corev1.Volume :=
  if inst.Spec.TLS.Ca.CaBundleSecretName = "" then [] else [c.CaCreateVolume inst.Spec.TLS.Ca]

/-- The mounts added to `commonVolumeMounts` by the CA-bundle guard of lines 45-48. -/
def caBundleMounts (c : Collaborators) (inst : ovnv1.OVNController) :
    List corev1.VolumeMount :=
  if inst.Spec.TLS.Ca.CaBundleSecretName = "" then []
  else c.CaCreateVolumeMounts inst.Spec.TLS.Ca none

/-- The volumes added by the `Enabled()` guard of lines 54-68. -/
def serviceVolumes (c : Collaborators) (inst : ovnv1.OVNController) : List corev1.Volume :=
  match inst.Spec.TLS.GenericService.SecretName with
  | none => []
  | some secretName =>
    if inst.Spec.TLS.Enabled then
      [c.ServiceCreateVolume (ovnDbService c secretName) c.ServiceNameOvnController]
    else []

/-- The mounts added to the ovn-controller container by the `Enabled()` guard. -/
def serviceMounts (c : Collaborators) (inst : ovnv1.OVNController) :
    List corev1.VolumeMount :=
  match inst.Spec.TLS.GenericService.SecretName with
  | none => []
  | some secretName =>
    if inst.Spec.TLS.Enabled then
      c.ServiceCreateVolumeMounts (ovnDbService c secretName) c.ServiceNameOvnController
    else []

/-- The value of `ovnControllerTLSArgs` after the `Enabled()` guard. -/
def tlsArgs (c : Collaborators) (inst : ovnv1.OVNController) : List String :=
  if inst.Spec.TLS.Enabled then
    [ "--certificate=" ++ c.OVNDbCertPath,
      "--private-key=" ++ c.OVNDbKeyPath,
      "--ca-cert=" ++ c.OVNDbCaCertPath ]
  else []

/-- The node selector left on the pod template by lines 258-260. -/
def podNodeSelector (inst : ovnv1.OVNController) : GoMap String :=
  if inst.Spec.NodeSelector ≠ none ∧ GoMap.len inst.Spec.NodeSelector > 0 then
    inst.Spec.NodeSelector
  else none

/-- The DaemonSet with the environment list of every container cleared: what is left
of a specification once the `Env` fields are disregarded. -/
def withoutEnv (ds : appsv1.DaemonSet) : appsv1.DaemonSet :=
  { ds with
      Spec.Template.Spec.Containers :=
        ds.Spec.Template.Spec.Containers.map (fun ctr => { ctr with Env := [] }) }

/-- The command of the pre-stop exec hook of a container, if it has one. -/
def preStopCommand (ctr : corev1.Container) : Option (List String) :=
  match ctr.Lifecycle with
  | none => none
  | some lifecycle =>
    match lifecycle.PreStop with
    | none => none
    | some handler =>
      match handler.Exec with
      | none => none
      | some action => some action.Command

/-- The container of a DaemonSet carrying a given name, if any. -/
def containerNamed (ds : appsv1.DaemonSet) (name : String) : Option corev1.Container :=
  ds.Spec.Template.Spec.Containers.find? (fun ctr => ctr.Name == name)

/-- A token occurs in an argument list when it is a substring of one of the arguments. -/
def argsContain (args : List String) (token : String) : Prop :=
  ∃ a ∈ args, token.data <:+: a.data

end ovncontroller

/-! ## Concrete inputs -/

namespace ovncontroller

/-- Modelled from the spec: the volume catalog, the TLS descriptor provider, the RBAC
name and the path constants are collaborators the spec describes by interface only
(section 6). This is one concrete choice with that interface, used to evaluate the
builder on concrete inputs; every general result below is proved for all
`Collaborators`. -/
def sampleCollaborators : Collaborators where
  ServiceNameOvnController := "ovn-controller"
  OVNDbCertPath := "/etc/pki/tls/certs/ovndb.crt"
  OVNDbKeyPath := "/etc/pki/tls/private/ovndb.key"
  OVNDbCaCertPath := "/etc/pki/tls/certs/ovndbca.crt"
  RbacResourceName := fun inst => "ovncontroller-" ++ inst.Name
  GetVolumes := fun name namespace_ =>
    [ { Name := "etc-ovs"
        VolumeSource := { HostPath := some { Path := "/var/home/core/" ++ namespace_ ++ "/etc/ovs" } } },
      { Name := "var-run"
        VolumeSource := { HostPath := some { Path := "/run/openvswitch" } } },
      { Name := "var-log"
        VolumeSource := { HostPath := some { Path := "/var/home/core/" ++ namespace_ ++ "/var/log" } } },
      { Name := "var-lib"
        VolumeSource := { HostPath := some { Path := "/var/home/core/" ++ namespace_ ++ "/var/lib" } } },
      { Name := "scripts"
        VolumeSource := { ConfigMap := some { Name := name ++ "-scripts", DefaultMode := some 493 } } } ]
  GetOvnControllerVolumeMounts := fun _ =>
    [ { Name := "var-run", MountPath := "/run/openvswitch" },
      { Name := "scripts", MountPath := "/usr/local/bin/container-scripts", ReadOnly := true } ]
  GetOvsDbVolumeMounts := fun _ =>
    [ { Name := "etc-ovs", MountPath := "/etc/openvswitch" },
      { Name := "var-run", MountPath := "/run/openvswitch" },
      { Name := "var-log", MountPath := "/var/log/openvswitch" },
      { Name := "var-lib", MountPath := "/var/lib/openvswitch" },
      { Name := "scripts", MountPath := "/usr/local/bin/container-scripts", ReadOnly := true } ]
  GetVswitchdVolumeMounts := fun _ =>
    [ { Name := "var-run", MountPath := "/run/openvswitch" },
      { Name := "var-log", MountPath := "/var/log/openvswitch" },
      { Name := "var-lib", MountPath := "/var/lib/openvswitch" } ]
  CaCreateVolume := fun ca =>
    { Name := "combined-ca-bundle"
      VolumeSource := { Secret := some { SecretName := ca.CaBundleSecretName, DefaultMode := some 292 } } }
  CaCreateVolumeMounts := fun _ caBundleMount =>
    [ { Name := "combined-ca-bundle"
        MountPath := caBundleMount.getD "/etc/pki/ca-trust/extracted/pem/tls-ca-bundle.pem"
        SubPath := "tls-ca-bundle.pem"
        ReadOnly := true } ]
  ServiceCreateVolume := fun svc serviceID =>
    { Name := serviceID ++ "-tls-certs"
      VolumeSource := { Secret := some { SecretName := svc.SecretName, DefaultMode := some 256 } } }
  ServiceCreateVolumeMounts := fun svc serviceID =>
    [ { Name := serviceID ++ "-tls-certs", MountPath := svc.CertMount.getD "/etc/pki/tls/certs/tls.crt"
        SubPath := "tls.crt", ReadOnly := true },
      { Name := serviceID ++ "-tls-certs", MountPath := svc.KeyMount.getD "/etc/pki/tls/private/tls.key"
        SubPath := "tls.key", ReadOnly := true } ] ++
    (match svc.CaMount with
      | some caMount =>
        [ { Name := serviceID ++ "-tls-certs", MountPath := caMount, SubPath := "ca.crt"
            ReadOnly := true } ]
      | none => [])

/-- An instance with TLS disabled and no CA bundle. -/
def samplePlain : ovnv1.OVNController :=
  { Name := "ovncontroller-sample"
    Namespace := "openstack"
    Spec :=
      { OvsContainerImage := "quay.io/example/ovn-base:current"
        OvnContainerImage := "quay.io/example/ovn-controller:current" } }

/-- An instance with a CA bundle secret and no service secret. -/
def sampleCaOnly : ovnv1.OVNController :=
  { samplePlain with Spec.TLS.Ca.CaBundleSecretName := "ca-secret" }

/-- An instance with a CA bundle secret and the service secret `ovn-tls`. -/
def sampleFullTLS : ovnv1.OVNController :=
  { samplePlain with
      Spec.TLS.Ca.CaBundleSecretName := "ca-secret"
      Spec.TLS.GenericService.SecretName := some "ovn-tls" }

/-- An instance with the service secret `ovn-tls` and no CA bundle secret. -/
def sampleServiceOnly : ovnv1.OVNController :=
  { samplePlain with Spec.TLS.GenericService.SecretName := some "ovn-tls" }

/-- A label map. -/
def sampleLabels : GoMap String := some [("service", "ovn-controller")]

/-- An annotation map. -/
def sampleAnnotations : GoMap String := some [("k8s.v1.cni.cncf.io/networks", "datacentre")]

end ovncontroller

/-! ## Results -/

namespace ovncontroller

/-- Symbolic evaluation of `DaemonSet` on a non-nil instance: the builder returns, and
the returned object is the literal of lines 153-255 with the volume list of line 256
and the node selector of lines 258-260. -/
theorem DaemonSet_eval (c : Collaborators) (inst : ovnv1.OVNController) (configHash : String)
    (labels annotations : GoMap String) :
    DaemonSet c (some inst) configHash labels annotations =
      .ok (some
        { ObjectMeta := { Name := c.ServiceNameOvnController, Namespace := inst.Namespace }
          Spec :=
            { Selector := some { MatchLabels := labels }
              Template :=
                { ObjectMeta := { Labels := labels, Annotations := annotations }
                  Spec :=
                    { ServiceAccountName := c.RbacResourceName inst
                      NodeSelector := podNodeSelector inst
                      Volumes :=
                        c.GetVolumes inst.Name inst.Namespace ++ caBundleVolumes c inst ++
                          serviceVolumes c inst
                      Containers :=
                        [ { Name := "ovsdb-server"
                            Command := ["/usr/bin/dumb-init"]
                            Args := ["--single-child", "--",
                              "/usr/local/bin/container-scripts/start-ovsdb-server.sh"]
                            Lifecycle := some (preStopLifecycle
                              ["/usr/share/openvswitch/scripts/ovs-ctl", "stop",
                                "--no-ovs-vswitchd", ";", "sleep", "2"])
                            Image := inst.Spec.OvsContainerImage
                            SecurityContext := some (securityContext 0 true)
                            Env := env.MergeEnvs [] [("CONFIG_HASH", env.SetValue configHash)]
                            VolumeMounts := c.GetOvsDbVolumeMounts () ++ caBundleMounts c inst
                            Resources := inst.Spec.Resources
                            LivenessProbe := some
                              { Exec := some { Command := ["/usr/bin/ovs-vsctl", "show"] }
                                TimeoutSeconds := 5, PeriodSeconds := 3, InitialDelaySeconds := 3 }
                            TerminationMessagePolicy :=
                              corev1.TerminationMessageFallbackToLogsOnError },
                          { Name := "ovs-vswitchd"
                            Command := ["/usr/sbin/ovs-vswitchd"]
                            Args := ["--pidfile", "--mlockall"]
                            Lifecycle := some (preStopLifecycle
                              ["/usr/share/openvswitch/scripts/ovs-ctl", "stop",
                                "--no-ovsdb-server", ";", "sleep", "2"])
                            Image := inst.Spec.OvsContainerImage
                            SecurityContext := some (securityContext 0 true)
                            Env := env.MergeEnvs [] [("CONFIG_HASH", env.SetValue configHash)]
                            VolumeMounts := c.GetVswitchdVolumeMounts () ++ caBundleMounts c inst
                            Resources := inst.Spec.Resources
                            LivenessProbe := some
                              { Exec := some { Command := ["/usr/bin/ovs-appctl", "bond/show"] }
                                TimeoutSeconds := 5, PeriodSeconds := 3, InitialDelaySeconds := 3 }
                            TerminationMessagePolicy :=
                              corev1.TerminationMessageFallbackToLogsOnError },
                          { Name := "ovn-controller"
                            Command := ["/bin/bash", "-c"]
                            Args :=
                              [ strings.Join
                                  (["/usr/local/bin/container-scripts/net_setup.sh && ovn-controller"]
                                    ++ (tlsArgs c inst ++
                                      ["--pidfile", "unix:/run/openvswitch/db.sock"]))
                                  " " ]
                            Lifecycle := some (preStopLifecycle
                              ["/usr/share/ovn/scripts/ovn-ctl", "stop_controller", ";",
                                "sleep", "2"])
                            Image := inst.Spec.OvnContainerImage
                            SecurityContext := some (securityContext 0 true)
                            Env := env.MergeEnvs [] [("CONFIG_HASH", env.SetValue configHash)]
                            VolumeMounts :=
                              c.GetOvnControllerVolumeMounts () ++ caBundleMounts c inst ++
                                serviceMounts c inst
                            Resources := inst.Spec.Resources
                            TerminationMessagePolicy :=
                              corev1.TerminationMessageFallbackToLogsOnError } ] } } } },
        none) := by
  unfold DaemonSet
  rcases hs : inst.Spec.TLS.GenericService.SecretName with _ | s
  · by_cases hca : inst.Spec.TLS.Ca.CaBundleSecretName = "" <;>
    by_cases hns : (inst.Spec.NodeSelector ≠ none ∧ GoMap.len inst.Spec.NodeSelector > 0) <;>
    simp [tls.SimpleService.Enabled, hs, hca, hns, deref, bind, Except.bind, pure, Except.pure,
      caBundleVolumes, caBundleMounts, serviceVolumes, serviceMounts, tlsArgs, podNodeSelector,
      fmt.Sprintf, ovnDbService]
  · by_cases hse : s = "" <;>
    by_cases hca : inst.Spec.TLS.Ca.CaBundleSecretName = "" <;>
    by_cases hns : (inst.Spec.NodeSelector ≠ none ∧ GoMap.len inst.Spec.NodeSelector > 0) <;>
    simp [tls.SimpleService.Enabled, hs, hse, hca, hns, deref, bind, Except.bind, pure,
      Except.pure, caBundleVolumes, caBundleMounts, serviceVolumes, serviceMounts, tlsArgs,
      podNodeSelector, fmt.Sprintf, ovnDbService]


/-- The joined ovn-controller command line when `ovnControllerTLSArgs` is nil. -/
theorem ovnControllerArgs_disabled :
    strings.Join (["/usr/local/bin/container-scripts/net_setup.sh && ovn-controller"] ++
      (([] : List String) ++ ["--pidfile", "unix:/run/openvswitch/db.sock"])) " " =
    "/usr/local/bin/container-scripts/net_setup.sh && ovn-controller --pidfile unix:/run/openvswitch/db.sock" := by
  decide

/-- The joined ovn-controller command line when the three TLS flags are present. -/
theorem ovnControllerArgs_enabled (p1 p2 p3 : String) :
    strings.Join (["/usr/local/bin/container-scripts/net_setup.sh && ovn-controller"] ++
      (["--certificate=" ++ p1, "--private-key=" ++ p2, "--ca-cert=" ++ p3] ++
        ["--pidfile", "unix:/run/openvswitch/db.sock"])) " " =
    "/usr/local/bin/container-scripts/net_setup.sh && ovn-controller --certificate=" ++ p1 ++
      " --private-key=" ++ p2 ++ " --ca-cert=" ++ p3 ++
      " --pidfile unix:/run/openvswitch/db.sock" := by
  apply String.ext
  simp [strings.Join, String.intercalate, String.intercalate.go, String.data_append]

set_option maxRecDepth 100000 in
/-- None of the TLS tokens is a substring of the command line without TLS flags. -/
theorem tlsTokens_absent :
    ∀ token ∈ ["--certificate=", "--private-key=", "--ca-cert="],
      ¬ (String.data token <:+:
        String.data "/usr/local/bin/container-scripts/net_setup.sh && ovn-controller --pidfile unix:/run/openvswitch/db.sock") := by
  decide

/-- Each TLS token is a substring of the command line with the TLS flags, whatever the
three paths are. -/
theorem tlsTokens_present (p1 p2 p3 : String) :
    ∀ token ∈ ["--certificate=", "--private-key=", "--ca-cert="],
      String.data token <:+:
        String.data
          ("/usr/local/bin/container-scripts/net_setup.sh && ovn-controller --certificate=" ++
            p1 ++ " --private-key=" ++ p2 ++ " --ca-cert=" ++ p3 ++
            " --pidfile unix:/run/openvswitch/db.sock") := by
  intro token htoken
  simp only [List.mem_cons, List.mem_singleton, List.not_mem_nil, or_false] at htoken
  rcases htoken with rfl | rfl | rfl
  · refine ⟨String.data "/usr/local/bin/container-scripts/net_setup.sh && ovn-controller ",
      String.data (p1 ++ " --private-key=" ++ p2 ++ " --ca-cert=" ++ p3 ++
        " --pidfile unix:/run/openvswitch/db.sock"), ?_⟩
    simp [String.data_append]
  · refine ⟨String.data
        ("/usr/local/bin/container-scripts/net_setup.sh && ovn-controller --certificate=" ++
          p1 ++ " "),
      String.data (p2 ++ " --ca-cert=" ++ p3 ++ " --pidfile unix:/run/openvswitch/db.sock"), ?_⟩
    simp [String.data_append]
  · refine ⟨String.data
        ("/usr/local/bin/container-scripts/net_setup.sh && ovn-controller --certificate=" ++
          p1 ++ " --private-key=" ++ p2 ++ " "),
      String.data (p3 ++ " --pidfile unix:/run/openvswitch/db.sock"), ?_⟩
    simp [String.data_append]

/-- The argument list of the ovn-controller container holds a TLS token exactly when
full TLS is enabled. -/
theorem tlsToken_iff_enabled (c : Collaborators) (inst : ovnv1.OVNController) :
    ∀ token ∈ ["--certificate=", "--private-key=", "--ca-cert="],
      (argsContain
          [ strings.Join
              (["/usr/local/bin/container-scripts/net_setup.sh && ovn-controller"] ++
                (tlsArgs c inst ++ ["--pidfile", "unix:/run/openvswitch/db.sock"])) " " ]
          token ↔ inst.Spec.TLS.Enabled = true) := by
  intro token htoken
  cases hE : inst.Spec.TLS.Enabled
  · simp only [tlsArgs, hE, Bool.false_eq_true, if_false, ovnControllerArgs_disabled,
      argsContain, List.mem_singleton, exists_eq_left, iff_false]
    exact tlsTokens_absent token htoken
  · simp only [tlsArgs, hE, if_true, ovnControllerArgs_enabled, argsContain,
      List.mem_singleton, exists_eq_left, iff_true]
    exact tlsTokens_present _ _ _ token htoken

/-- C1: the argument list of the ovn-controller container contains the three TLS tokens
`--certificate=`, `--private-key=` and `--ca-cert=` if and only if
`instance.Spec.TLS.Enabled()` is true; each token alone occurs exactly when it is true,
so with `Enabled()` false none of them occurs, whatever `CaBundleSecretName` is. -/
theorem DaemonSet_tls_args_iff_enabled (c : Collaborators) (inst : ovnv1.OVNController)
    (configHash : String) (labels annotations : GoMap String) :
    ∃ ds ctr,
      DaemonSet c (some inst) configHash labels annotations = .ok (some ds, none) ∧
      containerNamed ds "ovn-controller" = some ctr ∧
      ((argsContain ctr.Args "--certificate=" ∧ argsContain ctr.Args "--private-key=" ∧
          argsContain ctr.Args "--ca-cert=") ↔ inst.Spec.TLS.Enabled = true) ∧
      (∀ token ∈ ["--certificate=", "--private-key=", "--ca-cert="],
        (argsContain ctr.Args token ↔ inst.Spec.TLS.Enabled = true)) ∧
      (inst.Spec.TLS.Enabled = false →
        ¬ argsContain ctr.Args "--certificate=" ∧ ¬ argsContain ctr.Args "--private-key=" ∧
          ¬ argsContain ctr.Args "--ca-cert=") := by
  have key := tlsToken_iff_enabled c inst
  have h1 := key "--certificate=" (by simp)
  have h2 := key "--private-key=" (by simp)
  have h3 := key "--ca-cert=" (by simp)
  refine ⟨_, _, DaemonSet_eval c inst configHash labels annotations, rfl, ?_, ?_, ?_⟩
  · rw [h1, h2, h3]
    simp
  · exact key
  · intro hE
    rw [h1, h2, h3]
    simp [hE]

/-- C2: the CA-bundle volume is appended to the base catalog, and the CA-bundle mounts
are appended to the base mounts of each of the three containers, if and only if
`CaBundleSecretName` is non-empty; the statement is uniform in `Enabled()`, whose
volume and mounts come after the CA-bundle ones. -/
theorem DaemonSet_ca_bundle_iff (c : Collaborators) (inst : ovnv1.OVNController)
    (configHash : String) (labels annotations : GoMap String) :
    ∃ ds,
      DaemonSet c (some inst) configHash labels annotations = .ok (some ds, none) ∧
      (ds.Spec.Template.Spec.Volumes =
          c.GetVolumes inst.Name inst.Namespace ++
            c.CaCreateVolume inst.Spec.TLS.Ca :: serviceVolumes c inst ↔
        inst.Spec.TLS.Ca.CaBundleSecretName ≠ "") ∧
      (ds.Spec.Template.Spec.Volumes =
          c.GetVolumes inst.Name inst.Namespace ++ serviceVolumes c inst ↔
        inst.Spec.TLS.Ca.CaBundleSecretName = "") ∧
      (inst.Spec.TLS.Ca.CaBundleSecretName ≠ "" →
        c.CaCreateVolume inst.Spec.TLS.Ca ∈ ds.Spec.Template.Spec.Volumes) ∧
      ds.Spec.Template.Spec.Containers.map (fun ctr => (ctr.Name, ctr.VolumeMounts)) =
        [ ("ovsdb-server",
            c.GetOvsDbVolumeMounts () ++
              (if inst.Spec.TLS.Ca.CaBundleSecretName = "" then []
                else c.CaCreateVolumeMounts inst.Spec.TLS.Ca none)),
          ("ovs-vswitchd",
            c.GetVswitchdVolumeMounts () ++
              (if inst.Spec.TLS.Ca.CaBundleSecretName = "" then []
                else c.CaCreateVolumeMounts inst.Spec.TLS.Ca none)),
          ("ovn-controller",
            c.GetOvnControllerVolumeMounts () ++
              (if inst.Spec.TLS.Ca.CaBundleSecretName = "" then []
                else c.CaCreateVolumeMounts inst.Spec.TLS.Ca none) ++
              serviceMounts c inst) ] := by
  refine ⟨_, DaemonSet_eval c inst configHash labels annotations, ?_, ?_, ?_, ?_⟩
  · by_cases hca : inst.Spec.TLS.Ca.CaBundleSecretName = ""
    · simp only [caBundleVolumes, hca, if_true, List.append_nil, ne_eq, not_true, iff_false]
      intro h
      have hlen := congrArg List.length h
      simp at hlen
    · simp [caBundleVolumes, hca]
  · by_cases hca : inst.Spec.TLS.Ca.CaBundleSecretName = ""
    · simp [caBundleVolumes, hca]
    · simp only [caBundleVolumes, hca, if_false, iff_false]
      intro h
      have hlen := congrArg List.length h
      simp at hlen
  · intro hca
    simp [caBundleVolumes, hca]
  · simp [caBundleMounts]

/-- C3 fails as stated: with the service secret `ovn-tls` configured and an empty
`CaBundleSecretName`, `Enabled()` is true but the volume list has one volume more than
the base catalog, not two, and the CA-bundle volume is not in it. -/
theorem DaemonSet_volumes_tls_enabled_counterexample :
    sampleServiceOnly.Spec.TLS.Enabled = true ∧
    ∃ ds,
      DaemonSet sampleCollaborators (some sampleServiceOnly) "abc123" sampleLabels
        sampleAnnotations = .ok (some ds, none) ∧
      ds.Spec.Template.Spec.Volumes.length =
        (sampleCollaborators.GetVolumes sampleServiceOnly.Name
          sampleServiceOnly.Namespace).length + 1 ∧
      ds.Spec.Template.Spec.Volumes.length ≠
        (sampleCollaborators.GetVolumes sampleServiceOnly.Name
          sampleServiceOnly.Namespace).length + 2 ∧
      sampleCollaborators.CaCreateVolume sampleServiceOnly.Spec.TLS.Ca ∉
        ds.Spec.Template.Spec.Volumes := by
  refine ⟨by decide, _, DaemonSet_eval _ _ _ _ _, ?_, ?_, ?_⟩
  · decide
  · decide
  · decide

/-- C3 (amended): when `Enabled()` is true the volume list is the base catalog, then
the CA-bundle volume if `CaBundleSecretName` is non-empty, then the service TLS volume:
two volumes more than the base catalog when `CaBundleSecretName` is non-empty, one more
when it is empty. -/
theorem DaemonSet_volumes_tls_enabled (c : Collaborators) (inst : ovnv1.OVNController)
    (configHash : String) (labels annotations : GoMap String)
    (hE : inst.Spec.TLS.Enabled = true) :
    ∃ ds secretName,
      DaemonSet c (some inst) configHash labels annotations = .ok (some ds, none) ∧
      inst.Spec.TLS.GenericService.SecretName = some secretName ∧
      (inst.Spec.TLS.Ca.CaBundleSecretName ≠ "" →
        ds.Spec.Template.Spec.Volumes =
            c.GetVolumes inst.Name inst.Namespace ++
              [ c.CaCreateVolume inst.Spec.TLS.Ca,
                c.ServiceCreateVolume (ovnDbService c secretName) c.ServiceNameOvnController ] ∧
          ds.Spec.Template.Spec.Volumes.length =
            (c.GetVolumes inst.Name inst.Namespace).length + 2) ∧
      (inst.Spec.TLS.Ca.CaBundleSecretName = "" →
        ds.Spec.Template.Spec.Volumes =
            c.GetVolumes inst.Name inst.Namespace ++
              [ c.ServiceCreateVolume (ovnDbService c secretName) c.ServiceNameOvnController ] ∧
          ds.Spec.Template.Spec.Volumes.length =
            (c.GetVolumes inst.Name inst.Namespace).length + 1) := by
  rcases hs : inst.Spec.TLS.GenericService.SecretName with _ | s
  · simp [tls.SimpleService.Enabled, hs] at hE
  · refine ⟨_, s, DaemonSet_eval c inst configHash labels annotations, rfl, ?_, ?_⟩
    · intro hca
      simp [caBundleVolumes, serviceVolumes, hca, hs, hE]
    · intro hca
      simp [caBundleVolumes, serviceVolumes, hca, hs, hE]

/-- Witness of C3 (amended): the instance with CA bundle `ca-secret` and service secret
`ovn-tls` has `Enabled()` true and gets the base catalog plus two volumes. -/
theorem DaemonSet_volumes_tls_enabled_witness :
    sampleFullTLS.Spec.TLS.Enabled = true ∧
    ∃ ds secretName,
      DaemonSet sampleCollaborators (some sampleFullTLS) "abc123" sampleLabels
        sampleAnnotations = .ok (some ds, none) ∧
      sampleFullTLS.Spec.TLS.GenericService.SecretName = some secretName ∧
      (sampleFullTLS.Spec.TLS.Ca.CaBundleSecretName ≠ "" →
        ds.Spec.Template.Spec.Volumes =
            sampleCollaborators.GetVolumes sampleFullTLS.Name sampleFullTLS.Namespace ++
              [ sampleCollaborators.CaCreateVolume sampleFullTLS.Spec.TLS.Ca,
                sampleCollaborators.ServiceCreateVolume
                  (ovnDbService sampleCollaborators secretName)
                  sampleCollaborators.ServiceNameOvnController ] ∧
          ds.Spec.Template.Spec.Volumes.length =
            (sampleCollaborators.GetVolumes sampleFullTLS.Name
              sampleFullTLS.Namespace).length + 2) ∧
      (sampleFullTLS.Spec.TLS.Ca.CaBundleSecretName = "" →
        ds.Spec.Template.Spec.Volumes =
            sampleCollaborators.GetVolumes sampleFullTLS.Name sampleFullTLS.Namespace ++
              [ sampleCollaborators.ServiceCreateVolume
                  (ovnDbService sampleCollaborators secretName)
                  sampleCollaborators.ServiceNameOvnController ] ∧
          ds.Spec.Template.Spec.Volumes.length =
            (sampleCollaborators.GetVolumes sampleFullTLS.Name
              sampleFullTLS.Namespace).length + 1) :=
  ⟨by decide,
    DaemonSet_volumes_tls_enabled sampleCollaborators sampleFullTLS "abc123" sampleLabels
      sampleAnnotations (by decide)⟩

/-- C4: the volume list is the base catalog, followed by the CA-bundle volume when
`CaBundleSecretName` is non-empty, followed by the service TLS volume when `Enabled()`
is true. With `Enabled()` false it is the base catalog itself when `CaBundleSecretName`
is empty, and the base catalog plus exactly one volume when it is non-empty. -/
theorem DaemonSet_volumes_order (c : Collaborators) (inst : ovnv1.OVNController)
    (configHash : String) (labels annotations : GoMap String) :
    ∃ ds,
      DaemonSet c (some inst) configHash labels annotations = .ok (some ds, none) ∧
      ds.Spec.Template.Spec.Volumes =
        c.GetVolumes inst.Name inst.Namespace ++
          (if inst.Spec.TLS.Ca.CaBundleSecretName = "" then []
            else [c.CaCreateVolume inst.Spec.TLS.Ca]) ++
          serviceVolumes c inst ∧
      (inst.Spec.TLS.Enabled = true →
        ∃ secretName, inst.Spec.TLS.GenericService.SecretName = some secretName ∧
          serviceVolumes c inst =
            [c.ServiceCreateVolume (ovnDbService c secretName) c.ServiceNameOvnController]) ∧
      (inst.Spec.TLS.Enabled = false → serviceVolumes c inst = []) ∧
      (inst.Spec.TLS.Enabled = false → inst.Spec.TLS.Ca.CaBundleSecretName = "" →
        ds.Spec.Template.Spec.Volumes = c.GetVolumes inst.Name inst.Namespace ∧
          ds.Spec.Template.Spec.Volumes.length =
            (c.GetVolumes inst.Name inst.Namespace).length) ∧
      (inst.Spec.TLS.Enabled = false → inst.Spec.TLS.Ca.CaBundleSecretName ≠ "" →
        ds.Spec.Template.Spec.Volumes =
            c.GetVolumes inst.Name inst.Namespace ++ [c.CaCreateVolume inst.Spec.TLS.Ca] ∧
          ds.Spec.Template.Spec.Volumes.length =
            (c.GetVolumes inst.Name inst.Namespace).length + 1) := by
  have hoff : inst.Spec.TLS.Enabled = false → serviceVolumes c inst = [] := by
    intro hE
    unfold serviceVolumes
    split <;> simp [hE]
  refine ⟨_, DaemonSet_eval c inst configHash labels annotations, ?_, ?_, hoff, ?_, ?_⟩
  · simp [caBundleVolumes]
  · intro hE
    rcases hs : inst.Spec.TLS.GenericService.SecretName with _ | s
    · simp [tls.SimpleService.Enabled, hs] at hE
    · exact ⟨s, rfl, by simp [serviceVolumes, hs, hE]⟩
  · intro hE hca
    simp [caBundleVolumes, hca, hoff hE]
  · intro hE hca
    simp [caBundleVolumes, hca, hoff hE]

/-- C5: each of the three containers has a security context with added capabilities
exactly `NET_ADMIN`, `SYS_ADMIN`, `SYS_NICE`, an empty non-nil dropped list,
`Privileged = true` and `RunAsUser = 0`, for every instance, config hash, label map and
annotation map. -/
theorem DaemonSet_security_context (c : Collaborators) (inst : ovnv1.OVNController)
    (configHash : String) (labels annotations : GoMap String) :
    ∃ ds,
      DaemonSet c (some inst) configHash labels annotations = .ok (some ds, none) ∧
      ds.Spec.Template.Spec.Containers.map (fun ctr => ctr.Name) =
        ["ovsdb-server", "ovs-vswitchd", "ovn-controller"] ∧
      ∀ ctr ∈ ds.Spec.Template.Spec.Containers,
        ctr.SecurityContext = some
          { Capabilities := some
              { Add := some ["NET_ADMIN", "SYS_ADMIN", "SYS_NICE"]
                Drop := some [] }
            Privileged := some true
            RunAsUser := some 0 } := by
  refine ⟨_, DaemonSet_eval c inst configHash labels annotations, ?_, ?_⟩
  · simp
  · intro ctr hctr
    simp only [List.mem_cons, List.mem_singleton, List.not_mem_nil, or_false] at hctr
    rcases hctr with rfl | rfl | rfl <;> rfl

/-- Merging the single setter `CONFIG_HASH = SetValue h` into an empty list gives the
one entry `CONFIG_HASH` with value `h`. -/
theorem MergeEnvs_configHash (h : String) :
    env.MergeEnvs [] [("CONFIG_HASH", env.SetValue h)] =
      [{ Name := "CONFIG_HASH", Value := h, ValueFrom := none }] := by
  simp [env.MergeEnvs, env.applySetter, env.SetValue]

/-- C6: for every config hash `h`, the empty string included, the environment list of
each of the three containers is `env.MergeEnvs` of an empty base list and the single
setter `CONFIG_HASH = SetValue(h)`: exactly one entry, named `CONFIG_HASH`, with value
`h`. -/
theorem DaemonSet_env_config_hash (c : Collaborators) (inst : ovnv1.OVNController)
    (configHash : String) (labels annotations : GoMap String) :
    ∃ ds,
      DaemonSet c (some inst) configHash labels annotations = .ok (some ds, none) ∧
      ds.Spec.Template.Spec.Containers.map (fun ctr => ctr.Name) =
        ["ovsdb-server", "ovs-vswitchd", "ovn-controller"] ∧
      ∀ ctr ∈ ds.Spec.Template.Spec.Containers,
        ctr.Env = env.MergeEnvs [] [("CONFIG_HASH", env.SetValue configHash)] ∧
        ctr.Env = [{ Name := "CONFIG_HASH", Value := configHash, ValueFrom := none }] ∧
        ctr.Env.length = 1 := by
  refine ⟨_, DaemonSet_eval c inst configHash labels annotations, ?_, ?_⟩
  · simp
  · intro ctr hctr
    simp only [List.mem_cons, List.mem_singleton, List.not_mem_nil, or_false] at hctr
    rcases hctr with rfl | rfl | rfl <;>
      exact ⟨rfl, MergeEnvs_configHash configHash, by simp [MergeEnvs_configHash]⟩

/-- C7: the pod template carries a node selector, equal to `instance.Spec.NodeSelector`,
if and only if that map is non-empty; for a nil or an empty map it is left nil. -/
theorem DaemonSet_node_selector (c : Collaborators) (inst : ovnv1.OVNController)
    (configHash : String) (labels annotations : GoMap String) :
    ∃ ds,
      DaemonSet c (some inst) configHash labels annotations = .ok (some ds, none) ∧
      (ds.Spec.Template.Spec.NodeSelector ≠ none ↔
        (inst.Spec.NodeSelector ≠ none ∧ 0 < GoMap.len inst.Spec.NodeSelector)) ∧
      ((inst.Spec.NodeSelector ≠ none ∧ 0 < GoMap.len inst.Spec.NodeSelector) →
        ds.Spec.Template.Spec.NodeSelector = inst.Spec.NodeSelector) ∧
      ((inst.Spec.NodeSelector = none ∨ inst.Spec.NodeSelector = some []) →
        ds.Spec.Template.Spec.NodeSelector = none) := by
  refine ⟨_, DaemonSet_eval c inst configHash labels annotations, ?_, ?_, ?_⟩
  · by_cases hns : inst.Spec.NodeSelector ≠ none ∧ GoMap.len inst.Spec.NodeSelector > 0
    · simp only [podNodeSelector]
      rw [if_pos hns]
      exact ⟨fun _ => hns, fun _ => hns.1⟩
    · simp only [podNodeSelector]
      rw [if_neg hns]
      exact ⟨fun h => absurd rfl h, fun h => absurd h hns⟩
  · intro hns
    simp only [podNodeSelector]
    rw [if_pos hns]
  · intro hns
    rcases hns with hns | hns <;> simp [podNodeSelector, hns, GoMap.len]

/-- C8: on a non-nil instance `DaemonSet` returns a non-nil DaemonSet and a nil error,
for every config hash, label map and annotation map; the dereference of the service
`SecretName` is guarded by `Enabled()`, under which the pointer is non-nil, so it
succeeds. -/
theorem DaemonSet_total (c : Collaborators) (inst : ovnv1.OVNController)
    (configHash : String) (labels annotations : GoMap String) :
    (∃ ds, DaemonSet c (some inst) configHash labels annotations = .ok (some ds, none)) ∧
    (∀ panic, DaemonSet c (some inst) configHash labels annotations ≠ .error panic) ∧
    (inst.Spec.TLS.Enabled = true →
      ∃ secretName, inst.Spec.TLS.GenericService.SecretName = some secretName ∧
        deref inst.Spec.TLS.GenericService.SecretName = .ok secretName) := by
  refine ⟨⟨_, DaemonSet_eval c inst configHash labels annotations⟩, ?_, ?_⟩
  · intro panic
    rw [DaemonSet_eval c inst configHash labels annotations]
    intro h
    cases h
  · intro hE
    rcases hs : inst.Spec.TLS.GenericService.SecretName with _ | s
    · simp [tls.SimpleService.Enabled, hs] at hE
    · exact ⟨s, rfl, rfl⟩

/-- Visiting the entries of a one-entry map: every order is the entry itself. -/
theorem rangeOrder_singleton (rangeOrder : RangeOrder)
    (hrange : ∀ k m, (rangeOrder k m).Perm m) (k : Nat) (entry : String × env.Setter) :
    rangeOrder k [entry] = [entry] :=
  List.perm_singleton.mp (hrange k [entry])

/-- Whatever orders the `range` loops pick, the execution returns what `DaemonSet`
returns: the map `envVars` handed to `env.MergeEnvs` has the single entry
`CONFIG_HASH`. -/
theorem DaemonSetWithRange_eq (c : Collaborators) (rangeOrder : RangeOrder)
    (hrange : ∀ k m, (rangeOrder k m).Perm m) (inst : Option ovnv1.OVNController)
    (configHash : String) (labels annotations : GoMap String) :
    DaemonSetWithRange c rangeOrder inst configHash labels annotations =
      DaemonSet c inst configHash labels annotations := by
  simp only [DaemonSetWithRange, DaemonSet, rangeOrder_singleton rangeOrder hrange]

/-- The visiting order is a real choice: merging a map with two entries into an empty
list gives different environment lists for its two visiting orders. -/
theorem MergeEnvs_order_matters :
    env.MergeEnvs [] [("A", env.SetValue "1"), ("B", env.SetValue "2")] ≠
      env.MergeEnvs [] [("B", env.SetValue "2"), ("A", env.SetValue "1")] := by
  decide

/-- C9: `DaemonSet` is deterministic. Two executions on equal instances, config hashes,
label maps and annotation maps return equal results in every field, whatever order the
Go run time picks for each `range` over a map (the only choice an execution of the
builder has): the result depends on the four arguments only, and it is the result of
`DaemonSet`. -/
theorem DaemonSet_deterministic (c : Collaborators) (rangeOrder₁ rangeOrder₂ : RangeOrder)
    (inst₁ inst₂ : Option ovnv1.OVNController) (configHash₁ configHash₂ : String)
    (labels₁ labels₂ annotations₁ annotations₂ : GoMap String)
    (hrange₁ : ∀ k m, (rangeOrder₁ k m).Perm m) (hrange₂ : ∀ k m, (rangeOrder₂ k m).Perm m)
    (hinst : inst₁ = inst₂) (hhash : configHash₁ = configHash₂) (hlabels : labels₁ = labels₂)
    (hannotations : annotations₁ = annotations₂) :
    DaemonSetWithRange c rangeOrder₁ inst₁ configHash₁ labels₁ annotations₁ =
        DaemonSetWithRange c rangeOrder₂ inst₂ configHash₂ labels₂ annotations₂ ∧
      DaemonSetWithRange c rangeOrder₁ inst₁ configHash₁ labels₁ annotations₁ =
        DaemonSet c inst₁ configHash₁ labels₁ annotations₁ := by
  subst hinst hhash hlabels hannotations
  rw [DaemonSetWithRange_eq c rangeOrder₁ hrange₁, DaemonSetWithRange_eq c rangeOrder₂ hrange₂]
  exact ⟨rfl, rfl⟩

/-- Witness of C9: one execution visits every map in the order of its entries, the
other in the reverse order, on two spellings of the same inputs. -/
theorem DaemonSet_deterministic_witness :
    (∀ (k : Nat) (m : List (String × env.Setter)), ((fun _ m => m : RangeOrder) k m).Perm m) ∧
    (∀ (k : Nat) (m : List (String × env.Setter)),
      ((fun _ m => m.reverse : RangeOrder) k m).Perm m) ∧
    (DaemonSetWithRange sampleCollaborators (fun _ m => m) (some sampleFullTLS) "abc123"
          sampleLabels sampleAnnotations =
        DaemonSetWithRange sampleCollaborators (fun _ m => m.reverse)
          (some { samplePlain with
            Spec.TLS.Ca.CaBundleSecretName := "ca-secret"
            Spec.TLS.GenericService.SecretName := some "ovn-tls" })
          ("abc" ++ "123") (some [("service", "ovn-controller")])
          (some [("k8s.v1.cni.cncf.io/networks", "datacentre")]) ∧
      DaemonSetWithRange sampleCollaborators (fun _ m => m) (some sampleFullTLS) "abc123"
          sampleLabels sampleAnnotations =
        DaemonSet sampleCollaborators (some sampleFullTLS) "abc123" sampleLabels
          sampleAnnotations) :=
  ⟨fun _ m => List.Perm.refl m, fun _ m => List.reverse_perm m,
    DaemonSet_deterministic sampleCollaborators (fun _ m => m) (fun _ m => m.reverse) _ _ _ _
      _ _ _ _ (fun _ m => List.Perm.refl m) (fun _ m => List.reverse_perm m) rfl (by decide)
      rfl rfl⟩

/-- C10: the label map is passed unchanged to `Spec.Selector.MatchLabels` and to the
pod template labels, and the annotation map to the pod template annotations, for every
map including nil and empty ones; the selector therefore matches the template labels. -/
theorem DaemonSet_labels_passthrough (c : Collaborators) (inst : ovnv1.OVNController)
    (configHash : String) (labels annotations : GoMap String) :
    ∃ ds,
      DaemonSet c (some inst) configHash labels annotations = .ok (some ds, none) ∧
      ds.Spec.Selector = some { MatchLabels := labels } ∧
      ds.Spec.Template.ObjectMeta.Labels = labels ∧
      ds.Spec.Template.ObjectMeta.Annotations = annotations ∧
      ds.Spec.Selector.map (fun sel => sel.MatchLabels) =
        some ds.Spec.Template.ObjectMeta.Labels :=
  ⟨_, DaemonSet_eval c inst configHash labels annotations, rfl, rfl, rfl, rfl⟩

/-- C11: the ovn-controller container has no liveness probe; the ovsdb-server container
has a liveness probe executing `/usr/bin/ovs-vsctl show` and the ovs-vswitchd container
one executing `/usr/bin/ovs-appctl bond/show`, each with `TimeoutSeconds` 5,
`PeriodSeconds` 3 and `InitialDelaySeconds` 3; no container has a readiness probe. -/
theorem DaemonSet_probes (c : Collaborators) (inst : ovnv1.OVNController)
    (configHash : String) (labels annotations : GoMap String) :
    ∃ ds,
      DaemonSet c (some inst) configHash labels annotations = .ok (some ds, none) ∧
      ds.Spec.Template.Spec.Containers.map (fun ctr => (ctr.Name, ctr.LivenessProbe)) =
        [ ("ovsdb-server", some
            { Exec := some { Command := ["/usr/bin/ovs-vsctl", "show"] }
              TimeoutSeconds := 5
              PeriodSeconds := 3
              InitialDelaySeconds := 3 }),
          ("ovs-vswitchd", some
            { Exec := some { Command := ["/usr/bin/ovs-appctl", "bond/show"] }
              TimeoutSeconds := 5
              PeriodSeconds := 3
              InitialDelaySeconds := 3 }),
          ("ovn-controller", none) ] ∧
      ∀ ctr ∈ ds.Spec.Template.Spec.Containers, ctr.ReadinessProbe = none := by
  refine ⟨_, DaemonSet_eval c inst configHash labels annotations, rfl, ?_⟩
  intro ctr hctr
  simp only [List.mem_cons, List.mem_singleton, List.not_mem_nil, or_false] at hctr
  rcases hctr with rfl | rfl | rfl <;> rfl

/-- C12: each of the three containers has a pre-stop exec hook whose command list is the
stop command of its sub-service (`ovs-ctl stop --no-ovs-vswitchd`,
`ovs-ctl stop --no-ovsdb-server`, `ovn-ctl stop_controller`, the scripts given by their
full paths) immediately followed by the tokens `;`, `sleep`, `2`. -/
theorem DaemonSet_pre_stop_hooks (c : Collaborators) (inst : ovnv1.OVNController)
    (configHash : String) (labels annotations : GoMap String) :
    ∃ ds,
      DaemonSet c (some inst) configHash labels annotations = .ok (some ds, none) ∧
      ds.Spec.Template.Spec.Containers.map (fun ctr => (ctr.Name, preStopCommand ctr)) =
        [ ("ovsdb-server", some
            (["/usr/share/openvswitch/scripts/ovs-ctl", "stop", "--no-ovs-vswitchd"] ++
              [";", "sleep", "2"])),
          ("ovs-vswitchd", some
            (["/usr/share/openvswitch/scripts/ovs-ctl", "stop", "--no-ovsdb-server"] ++
              [";", "sleep", "2"])),
          ("ovn-controller", some
            (["/usr/share/ovn/scripts/ovn-ctl", "stop_controller"] ++
              [";", "sleep", "2"])) ] ∧
      ∀ ctr ∈ ds.Spec.Template.Spec.Containers,
        ∃ stop, preStopCommand ctr = some (stop ++ [";", "sleep", "2"]) ∧
          stop ≠ [] ∧ ";" ∉ stop ∧ "sleep" ∉ stop := by
  refine ⟨_, DaemonSet_eval c inst configHash labels annotations, rfl, ?_⟩
  intro ctr hctr
  simp only [List.mem_cons, List.mem_singleton, List.not_mem_nil, or_false] at hctr
  rcases hctr with rfl | rfl | rfl
  · exact ⟨["/usr/share/openvswitch/scripts/ovs-ctl", "stop", "--no-ovs-vswitchd"], rfl,
      by decide, by decide, by decide⟩
  · exact ⟨["/usr/share/openvswitch/scripts/ovs-ctl", "stop", "--no-ovsdb-server"], rfl,
      by decide, by decide, by decide⟩
  · exact ⟨["/usr/share/ovn/scripts/ovn-ctl", "stop_controller"], rfl,
      by decide, by decide, by decide⟩

/-- C13: the ovn-controller container has command `/bin/bash -c` and exactly one
argument, the single-space join of the network-setup head, the three TLS flags (only
when `Enabled()`, in the order certificate, private key, CA certificate), `--pidfile`
and the database socket. With TLS disabled the string is the fixed command line; with
TLS enabled it carries the three flags with the certificate, key and CA paths. -/
theorem DaemonSet_ovn_controller_args (c : Collaborators) (inst : ovnv1.OVNController)
    (configHash : String) (labels annotations : GoMap String) :
    ∃ ds ctr,
      DaemonSet c (some inst) configHash labels annotations = .ok (some ds, none) ∧
      containerNamed ds "ovn-controller" = some ctr ∧
      ctr.Command = ["/bin/bash", "-c"] ∧
      ctr.Args.length = 1 ∧
      ctr.Args =
        [ strings.Join
            (["/usr/local/bin/container-scripts/net_setup.sh && ovn-controller"] ++
              (if inst.Spec.TLS.Enabled then
                [ "--certificate=" ++ c.OVNDbCertPath,
                  "--private-key=" ++ c.OVNDbKeyPath,
                  "--ca-cert=" ++ c.OVNDbCaCertPath ]
              else []) ++
              ["--pidfile", "unix:/run/openvswitch/db.sock"])
            " " ] ∧
      (inst.Spec.TLS.Enabled = false →
        ctr.Args =
          ["/usr/local/bin/container-scripts/net_setup.sh && ovn-controller --pidfile unix:/run/openvswitch/db.sock"]) ∧
      (inst.Spec.TLS.Enabled = true →
        ctr.Args =
            [ "/usr/local/bin/container-scripts/net_setup.sh && ovn-controller --certificate="
                ++ c.OVNDbCertPath ++ " --private-key=" ++ c.OVNDbKeyPath ++ " --ca-cert=" ++
                c.OVNDbCaCertPath ++ " --pidfile unix:/run/openvswitch/db.sock" ] ∧
          argsContain ctr.Args ("--certificate=" ++ c.OVNDbCertPath) ∧
          argsContain ctr.Args ("--private-key=" ++ c.OVNDbKeyPath) ∧
          argsContain ctr.Args ("--ca-cert=" ++ c.OVNDbCaCertPath)) := by
  refine ⟨_, _, DaemonSet_eval c inst configHash labels annotations, rfl, rfl, rfl, ?_, ?_, ?_⟩
  · simp [tlsArgs]
  · intro hE
    simp only [tlsArgs, hE, Bool.false_eq_true, if_false, ovnControllerArgs_disabled]
  · intro hE
    simp only [tlsArgs, hE, if_true, ovnControllerArgs_enabled, argsContain,
      List.mem_singleton, exists_eq_left, true_and]
    refine ⟨?_, ?_, ?_⟩
    · refine ⟨String.data "/usr/local/bin/container-scripts/net_setup.sh && ovn-controller ",
        String.data (" --private-key=" ++ c.OVNDbKeyPath ++ " --ca-cert=" ++
          c.OVNDbCaCertPath ++ " --pidfile unix:/run/openvswitch/db.sock"), ?_⟩
      simp [String.data_append]
    · refine ⟨String.data
          ("/usr/local/bin/container-scripts/net_setup.sh && ovn-controller --certificate="
            ++ c.OVNDbCertPath ++ " "),
        String.data (" --ca-cert=" ++ c.OVNDbCaCertPath ++
          " --pidfile unix:/run/openvswitch/db.sock"), ?_⟩
      simp [String.data_append]
    · refine ⟨String.data
          ("/usr/local/bin/container-scripts/net_setup.sh && ovn-controller --certificate="
            ++ c.OVNDbCertPath ++ " --private-key=" ++ c.OVNDbKeyPath ++ " "),
        String.data " --pidfile unix:/run/openvswitch/db.sock", ?_⟩
      simp [String.data_append]

/-- C14: for two different config hashes the two specifications are different, and they
differ in the environment lists of the containers only: with the `Env` fields cleared
they are equal, so name, namespace, selector, labels, annotations, volumes, volume
mounts, commands, arguments, images, probes, hooks, security contexts and node selector
coincide. -/
theorem DaemonSet_config_hash_changes_env_only (c : Collaborators)
    (inst : ovnv1.OVNController) (configHash₁ configHash₂ : String)
    (labels annotations : GoMap String) (hne : configHash₁ ≠ configHash₂) :
    ∃ ds₁ ds₂,
      DaemonSet c (some inst) configHash₁ labels annotations = .ok (some ds₁, none) ∧
      DaemonSet c (some inst) configHash₂ labels annotations = .ok (some ds₂, none) ∧
      ds₁ ≠ ds₂ ∧
      (∀ i : Fin 3,
        (ds₁.Spec.Template.Spec.Containers.map (fun ctr => ctr.Env)).get? i ≠
          (ds₂.Spec.Template.Spec.Containers.map (fun ctr => ctr.Env)).get? i) ∧
      withoutEnv ds₁ = withoutEnv ds₂ ∧
      ds₁.ObjectMeta = ds₂.ObjectMeta ∧
      ds₁.Spec.Selector = ds₂.Spec.Selector ∧
      ds₁.Spec.Template.ObjectMeta = ds₂.Spec.Template.ObjectMeta ∧
      ds₁.Spec.Template.Spec.Volumes = ds₂.Spec.Template.Spec.Volumes ∧
      ds₁.Spec.Template.Spec.NodeSelector = ds₂.Spec.Template.Spec.NodeSelector ∧
      ds₁.Spec.Template.Spec.ServiceAccountName = ds₂.Spec.Template.Spec.ServiceAccountName ∧
      ds₁.Spec.Template.Spec.Containers.map (fun ctr => { ctr with Env := [] }) =
        ds₂.Spec.Template.Spec.Containers.map (fun ctr => { ctr with Env := [] }) := by
  refine ⟨_, _, DaemonSet_eval c inst configHash₁ labels annotations,
    DaemonSet_eval c inst configHash₂ labels annotations, ?_, ?_, rfl, rfl, rfl, rfl, rfl,
    rfl, rfl, rfl⟩
  · intro h
    have henv := congrArg
      (fun ds : appsv1.DaemonSet => ds.Spec.Template.Spec.Containers.map (fun ctr => ctr.Env)) h
    simp [MergeEnvs_configHash] at henv
    exact hne henv
  · intro i
    fin_cases i <;> simp [MergeEnvs_configHash, hne]

/-- Witness of C14: the hashes `abc123` and `def456` on the fully TLS-enabled instance. -/
theorem DaemonSet_config_hash_changes_env_only_witness :
    "abc123" ≠ "def456" ∧
    ∃ ds₁ ds₂,
      DaemonSet sampleCollaborators (some sampleFullTLS) "abc123" sampleLabels
        sampleAnnotations = .ok (some ds₁, none) ∧
      DaemonSet sampleCollaborators (some sampleFullTLS) "def456" sampleLabels
        sampleAnnotations = .ok (some ds₂, none) ∧
      ds₁ ≠ ds₂ ∧
      (∀ i : Fin 3,
        (ds₁.Spec.Template.Spec.Containers.map (fun ctr => ctr.Env)).get? i ≠
          (ds₂.Spec.Template.Spec.Containers.map (fun ctr => ctr.Env)).get? i) ∧
      withoutEnv ds₁ = withoutEnv ds₂ ∧
      ds₁.ObjectMeta = ds₂.ObjectMeta ∧
      ds₁.Spec.Selector = ds₂.Spec.Selector ∧
      ds₁.Spec.Template.ObjectMeta = ds₂.Spec.Template.ObjectMeta ∧
      ds₁.Spec.Template.Spec.Volumes = ds₂.Spec.Template.Spec.Volumes ∧
      ds₁.Spec.Template.Spec.NodeSelector = ds₂.Spec.Template.Spec.NodeSelector ∧
      ds₁.Spec.Template.Spec.ServiceAccountName = ds₂.Spec.Template.Spec.ServiceAccountName ∧
      ds₁.Spec.Template.Spec.Containers.map (fun ctr => { ctr with Env := [] }) =
        ds₂.Spec.Template.Spec.Containers.map (fun ctr => { ctr with Env := [] }) :=
  ⟨by decide,
    DaemonSet_config_hash_changes_env_only sampleCollaborators sampleFullTLS "abc123" "def456"
      sampleLabels sampleAnnotations (by decide)⟩

/-- The service mounts when full TLS is disabled: none. -/
theorem serviceMounts_disabled (c : Collaborators) (inst : ovnv1.OVNController)
    (hE : inst.Spec.TLS.Enabled = false) : serviceMounts c inst = [] := by
  unfold serviceMounts
  split <;> simp [hE]

/-- C15: the service TLS mounts go to the ovn-controller container only. The mounts of
ovsdb-server are `GetOvsDbVolumeMounts()` followed by the CA-bundle mounts, those of
ovs-vswitchd are `GetVswitchdVolumeMounts()` followed by the CA-bundle mounts, and both
are the same whatever the service secret (hence whatever `Enabled()`); the mounts of
ovn-controller are `GetOvnControllerVolumeMounts()`, the CA-bundle mounts, and then
the service TLS mounts exactly when `Enabled()` is true. -/
theorem DaemonSet_service_mounts_frame (c : Collaborators) (inst : ovnv1.OVNController)
    (configHash : String) (labels annotations : GoMap String) :
    ∃ ds,
      DaemonSet c (some inst) configHash labels annotations = .ok (some ds, none) ∧
      ds.Spec.Template.Spec.Containers.map (fun ctr => (ctr.Name, ctr.VolumeMounts)) =
        [ ("ovsdb-server", c.GetOvsDbVolumeMounts () ++ caBundleMounts c inst),
          ("ovs-vswitchd", c.GetVswitchdVolumeMounts () ++ caBundleMounts c inst),
          ("ovn-controller",
            c.GetOvnControllerVolumeMounts () ++ caBundleMounts c inst ++
              serviceMounts c inst) ] ∧
      (inst.Spec.TLS.Enabled = true →
        ∃ secretName, inst.Spec.TLS.GenericService.SecretName = some secretName ∧
          serviceMounts c inst =
            c.ServiceCreateVolumeMounts (ovnDbService c secretName)
              c.ServiceNameOvnController) ∧
      (inst.Spec.TLS.Enabled = false → serviceMounts c inst = []) ∧
      (∀ secretName : Option String,
        ∃ ds',
          DaemonSet c
              (some { inst with Spec.TLS.GenericService.SecretName := secretName })
              configHash labels annotations = .ok (some ds', none) ∧
          (containerNamed ds' "ovsdb-server").map (fun ctr => ctr.VolumeMounts) =
            some (c.GetOvsDbVolumeMounts () ++ caBundleMounts c inst) ∧
          (containerNamed ds' "ovs-vswitchd").map (fun ctr => ctr.VolumeMounts) =
            some (c.GetVswitchdVolumeMounts () ++ caBundleMounts c inst)) := by
  refine ⟨_, DaemonSet_eval c inst configHash labels annotations, rfl, ?_,
    serviceMounts_disabled c inst, ?_⟩
  · intro hE
    rcases hs : inst.Spec.TLS.GenericService.SecretName with _ | s
    · simp [tls.SimpleService.Enabled, hs] at hE
    · exact ⟨s, rfl, by simp [serviceMounts, hs, hE]⟩
  · intro secretName
    exact ⟨_, DaemonSet_eval c _ configHash labels annotations, rfl, rfl⟩

/-- The builder adds no duplicate volume name when the collaborators name their volumes
apart: a base catalog with distinct names, a CA-bundle volume and a service TLS volume
whose names are not in the catalog and differ from each other. -/
theorem DaemonSet_volume_names_nodup_of_named_apart (c : Collaborators)
    (inst : ovnv1.OVNController) (configHash : String) (labels annotations : GoMap String)
    (hbase : ((c.GetVolumes inst.Name inst.Namespace).map (fun v => v.Name)).Nodup)
    (hca : (c.CaCreateVolume inst.Spec.TLS.Ca).Name ∉
      (c.GetVolumes inst.Name inst.Namespace).map (fun v => v.Name))
    (hsvc : ∀ svc : tls.Service,
      (c.ServiceCreateVolume svc c.ServiceNameOvnController).Name ∉
          (c.GetVolumes inst.Name inst.Namespace).map (fun v => v.Name) ∧
        (c.ServiceCreateVolume svc c.ServiceNameOvnController).Name ≠
          (c.CaCreateVolume inst.Spec.TLS.Ca).Name) :
    ∃ ds,
      DaemonSet c (some inst) configHash labels annotations = .ok (some ds, none) ∧
      (ds.Spec.Template.Spec.Volumes.map (fun v => v.Name)).Nodup := by
  refine ⟨_, DaemonSet_eval c inst configHash labels annotations, ?_⟩
  have hsv : serviceVolumes c inst = [] ∨ ∃ svc, serviceVolumes c inst =
      [c.ServiceCreateVolume svc c.ServiceNameOvnController] := by
    unfold serviceVolumes
    split
    · exact Or.inl rfl
    · split
      · exact Or.inr ⟨_, rfl⟩
      · exact Or.inl rfl
  have hcv : caBundleVolumes c inst = [] ∨
      caBundleVolumes c inst = [c.CaCreateVolume inst.Spec.TLS.Ca] := by
    unfold caBundleVolumes
    split
    · exact Or.inl rfl
    · exact Or.inr rfl
  simp only [List.mem_map, not_exists, not_and] at hca hsvc
  rcases hsv with hsv | ⟨svc, hsv⟩ <;> rcases hcv with hcv | hcv <;>
    simp only [hsv, hcv, List.append_nil, List.map_append, List.map_cons, List.map_nil,
      List.append_assoc, List.singleton_append]
  · exact hbase
  · rw [List.nodup_append]
    refine ⟨hbase, by simp, ?_⟩
    intro a ha hb
    simp only [List.mem_singleton] at hb
    subst hb
    obtain ⟨v, hv, hvn⟩ := List.mem_map.mp ha
    exact hca v hv hvn
  · rw [List.nodup_append]
    refine ⟨hbase, by simp, ?_⟩
    intro a ha hb
    simp only [List.mem_singleton] at hb
    subst hb
    obtain ⟨v, hv, hvn⟩ := List.mem_map.mp ha
    exact (hsvc svc).1 v hv hvn
  · rw [List.nodup_append]
    refine ⟨hbase, ?_, ?_⟩
    · simp only [List.nodup_cons, List.mem_singleton, List.not_mem_nil, not_false_eq_true,
        List.nodup_nil, and_true]
      exact fun h => (hsvc svc).2 h.symm
    · intro a ha hb
      simp only [List.mem_cons, List.mem_singleton, List.not_mem_nil, or_false] at hb
      obtain ⟨v, hv, hvn⟩ := List.mem_map.mp ha
      rcases hb with hb | hb
      · subst hb
        exact hca v hv hvn
      · subst hb
        exact (hsvc svc).1 v hv hvn

/-- C17: the pod template has exactly three containers, in the order ovsdb-server,
ovs-vswitchd, ovn-controller, with pairwise distinct names and the commands, arguments
and images of the source; the first two share `OvsContainerImage`, and the commands are
the same whatever the TLS configuration of the instance. -/
theorem DaemonSet_three_containers (c : Collaborators) (inst : ovnv1.OVNController)
    (configHash : String) (labels annotations : GoMap String) :
    ∃ ds,
      DaemonSet c (some inst) configHash labels annotations = .ok (some ds, none) ∧
      ds.Spec.Template.Spec.Containers.length = 3 ∧
      (ds.Spec.Template.Spec.Containers.map (fun ctr => ctr.Name)).Nodup ∧
      ds.Spec.Template.Spec.Containers.map (fun ctr => (ctr.Name, ctr.Command, ctr.Image)) =
        [ ("ovsdb-server", ["/usr/bin/dumb-init"], inst.Spec.OvsContainerImage),
          ("ovs-vswitchd", ["/usr/sbin/ovs-vswitchd"], inst.Spec.OvsContainerImage),
          ("ovn-controller", ["/bin/bash", "-c"], inst.Spec.OvnContainerImage) ] ∧
      (ds.Spec.Template.Spec.Containers.map (fun ctr => ctr.Args)).take 2 =
        [ ["--single-child", "--", "/usr/local/bin/container-scripts/start-ovsdb-server.sh"],
          ["--pidfile", "--mlockall"] ] ∧
      (∀ tlsConfig : tls.SimpleService,
        ∃ ds',
          DaemonSet c (some { inst with Spec.TLS := tlsConfig }) configHash labels
            annotations = .ok (some ds', none) ∧
          ds'.Spec.Template.Spec.Containers.map (fun ctr => (ctr.Name, ctr.Command)) =
            ds.Spec.Template.Spec.Containers.map (fun ctr => (ctr.Name, ctr.Command))) := by
  refine ⟨_, DaemonSet_eval c inst configHash labels annotations, rfl, ?_, rfl, rfl, ?_⟩
  · show (["ovsdb-server", "ovs-vswitchd", "ovn-controller"] : List String).Nodup
    decide
  intro tlsConfig
  exact ⟨_, DaemonSet_eval c _ configHash labels annotations, rfl⟩

/-- C18: each of the three containers has `Resources` equal to `instance.Spec.Resources`
and `TerminationMessagePolicy` equal to `FallbackToLogsOnError`, whatever the TLS
configuration and the role of the container. -/
theorem DaemonSet_resources_and_termination_policy (c : Collaborators)
    (inst : ovnv1.OVNController) (configHash : String) (labels annotations : GoMap String) :
    ∃ ds,
      DaemonSet c (some inst) configHash labels annotations = .ok (some ds, none) ∧
      ds.Spec.Template.Spec.Containers.map (fun ctr => ctr.Name) =
        ["ovsdb-server", "ovs-vswitchd", "ovn-controller"] ∧
      ∀ ctr ∈ ds.Spec.Template.Spec.Containers,
        ctr.Resources = inst.Spec.Resources ∧
        ctr.TerminationMessagePolicy = corev1.TerminationMessageFallbackToLogsOnError ∧
        ctr.TerminationMessagePolicy = "FallbackToLogsOnError" := by
  refine ⟨_, DaemonSet_eval c inst configHash labels annotations, rfl, ?_⟩
  intro ctr hctr
  simp only [List.mem_cons, List.mem_singleton, List.not_mem_nil, or_false] at hctr
  rcases hctr with rfl | rfl | rfl <;> exact ⟨rfl, rfl, rfl⟩

/-- C19: the DaemonSet has `Namespace` equal to `instance.Namespace`, pod
`ServiceAccountName` equal to `instance.RbacResourceName()` and `Name` equal to the
constant `ovnv1.ServiceNameOvnController`; two instances that differ in their name only
get DaemonSets with the same name and namespace. -/
theorem DaemonSet_identity (c : Collaborators) (inst : ovnv1.OVNController)
    (configHash : String) (labels annotations : GoMap String) :
    ∃ ds,
      DaemonSet c (some inst) configHash labels annotations = .ok (some ds, none) ∧
      ds.ObjectMeta.Namespace = inst.Namespace ∧
      ds.Spec.Template.Spec.ServiceAccountName = c.RbacResourceName inst ∧
      ds.ObjectMeta.Name = c.ServiceNameOvnController ∧
      (∀ otherName : String,
        ∃ ds',
          DaemonSet c (some { inst with Name := otherName }) configHash labels annotations =
            .ok (some ds', none) ∧
          ds'.ObjectMeta.Name = ds.ObjectMeta.Name ∧
          ds'.ObjectMeta.Namespace = ds.ObjectMeta.Namespace) := by
  refine ⟨_, DaemonSet_eval c inst configHash labels annotations, rfl, rfl, rfl, ?_⟩
  intro otherName
  exact ⟨_, DaemonSet_eval c _ configHash labels annotations, rfl, rfl⟩

end ovncontroller
